import Mathlib

/-!
Verification of the session/authorization subsystem of the medical
appointment client: the AuthContext provider (signIn, register, signOut,
updateUser, loadStoredUser) and the AppNavigator route guard.

The Authentication Gateway (authService) and the Credential Store
(AsyncStorage) are external collaborators; each call to them is modelled
by an oracle argument giving that call's outcome, so the definitions
below follow the control flow of the source line by line.
-/

namespace MedicalApp

/-- A user record, as in types/auth. The role is a plain string in the
source (admin, doctor, patient, but nothing constrains it). -/
structure User where
  id : String
  name : String
  email : String
  role : String
deriving DecidableEq

/-- JavaScript errors are modelled by their message string. -/
abbrev JsError := String

/-- The value returned by the gateway on successful sign-in/register. -/
structure AuthResponse where
  user : User
  token : String
deriving DecidableEq

/-- The Credential Store: the two AsyncStorage entries under the fixed
keys MedicalApp:user and MedicalApp:token. -/
structure Store where
  userEntry : Option User
  tokenEntry : Option String
deriving DecidableEq

/-- Outcome oracle for the AsyncStorage calls an operation may make:
true means the call succeeds, false means it throws. -/
structure StoreBehavior where
  setUserOk : Bool
  setTokenOk : Bool
  removeUserOk : Bool
  removeTokenOk : Bool
deriving DecidableEq

/-- The AuthProvider state (user, loading) together with the persisted
store contents. -/
structure AuthState where
  user : Option User
  loading : Bool
  store : Store
deriving DecidableEq

/-- Process start: user null, loading true, nothing persisted. -/
def initialState : AuthState :=
  { user := none, loading := true, store := { userEntry := none, tokenEntry := none } }

/-- Error thrown by a failing AsyncStorage call. -/
def persistenceError : JsError := "PersistenceError"

/-- signIn (AuthContext lines 69-78): call the gateway; on success set
user in memory, then persist user, then persist token; any throw
(gateway or storage) is rethrown by the catch. -/
def signIn (gw : Except JsError AuthResponse) (b : StoreBehavior) (s : AuthState) :
    AuthState × Option JsError :=
  match gw with
  | .error e => (s, some e)
  | .ok resp =>
    let s1 : AuthState := { s with user := some resp.user }
    if b.setUserOk then
      let s2 : AuthState := { s1 with store := { s1.store with userEntry := some resp.user } }
      if b.setTokenOk then
        ({ s2 with store := { s2.store with tokenEntry := some resp.token } }, none)
      else (s2, some persistenceError)
    else (s1, some persistenceError)

/-- register (AuthContext lines 81-90): identical body to signIn except
that the gateway call is the registration path. -/
def register (gw : Except JsError AuthResponse) (b : StoreBehavior) (s : AuthState) :
    AuthState × Option JsError :=
  match gw with
  | .error e => (s, some e)
  | .ok resp =>
    let s1 : AuthState := { s with user := some resp.user }
    if b.setUserOk then
      let s2 : AuthState := { s1 with store := { s1.store with userEntry := some resp.user } }
      if b.setTokenOk then
        ({ s2 with store := { s2.store with tokenEntry := some resp.token } }, none)
      else (s2, some persistenceError)
    else (s1, some persistenceError)

/-- signOut (AuthContext lines 93-102): inside one try block, call the
gateway sign-out, then set user to null, then remove the user entry,
then remove the token entry; the catch logs and swallows every error,
so a throw at any point abandons the remaining steps but returns
normally. gwOk gives the gateway call outcome. -/
def signOut (gwOk : Bool) (b : StoreBehavior) (s : AuthState) :
    AuthState × Option JsError :=
  if gwOk then
    let s1 : AuthState := { s with user := none }
    if b.removeUserOk then
      let s2 : AuthState := { s1 with store := { s1.store with userEntry := none } }
      if b.removeTokenOk then
        ({ s2 with store := { s2.store with tokenEntry := none } }, none)
      else (s2, none)
    else (s1, none)
  else (s, none)

/-- updateUser (AuthContext lines 105-113): set the in-memory user to the
argument, then persist it; a storage throw is logged and rethrown. There
is no check on role or id. -/
def updateUser (b : StoreBehavior) (updatedUser : User) (s : AuthState) :
    AuthState × Option JsError :=
  let s1 : AuthState := { s with user := some updatedUser }
  if b.setUserOk then
    ({ s1 with store := { s1.store with userEntry := some updatedUser } }, none)
  else (s1, some persistenceError)

/-- loadStoredUser (AuthContext lines 46-57): try to read the stored
user; if one is found set it; the catch swallows any error; the finally
block always sets loading to false. The gateway read outcome is the
oracle gw (ok some, ok none, or a throw). Returns no error. -/
def loadStoredUser (gw : Except JsError (Option User)) (s : AuthState) : AuthState :=
  match gw with
  | .ok (some u) => { s with user := some u, loading := false }
  | .ok none => { s with loading := false }
  | .error _ => { s with loading := false }

/-! Operation sequences over the session manager, for the pairing
invariant. Each list element carries the oracles of that call. -/

/-- One session manager operation together with its oracles. -/
inductive Op
  | opSignIn (gw : Except JsError AuthResponse) (b : StoreBehavior)
  | opRegister (gw : Except JsError AuthResponse) (b : StoreBehavior)
  | opSignOut (gwOk : Bool) (b : StoreBehavior)
  | opUpdateUser (b : StoreBehavior) (u : User)
  | opRestore (gw : Except JsError (Option User))

/-- The state transition of one operation (errors returned to the caller
do not undo the state effects already applied). -/
def step (o : Op) (s : AuthState) : AuthState :=
  match o with
  | .opSignIn gw b => (signIn gw b s).1
  | .opRegister gw b => (register gw b s).1
  | .opSignOut gwOk b => (signOut gwOk b s).1
  | .opUpdateUser b u => (updateUser b u s).1
  | .opRestore gw => loadStoredUser gw s

/-- Run a sequence of operations from a state. -/
def run (s : AuthState) : List Op → AuthState
  | [] => s
  | o :: rest => run (step o s) rest

/-- The pairing property of the persisted store: the user entry is
present exactly when the token entry is. -/
def pairing (st : Store) : Bool := st.userEntry.isSome == st.tokenEntry.isSome

/-- Guard under which one operation preserves pairing: its storage calls
succeed, and updateUser runs only when a token is persisted (an active
persisted session). -/
def opGuard (s : AuthState) : Op → Bool
  | .opSignIn _ b => b.setUserOk && b.setTokenOk
  | .opRegister _ b => b.setUserOk && b.setTokenOk
  | .opSignOut _ b => b.removeUserOk && b.removeTokenOk
  | .opUpdateUser b _ => b.setUserOk && s.store.tokenEntry.isSome
  | .opRestore _ => true

/-- The guard holding along a whole run. -/
def guardedRun (s : AuthState) : List Op → Bool
  | [] => true
  | o :: rest => opGuard s o && guardedRun (step o s) rest

/-! The AppNavigator (AppNavigator.tsx lines 42-126): a pure function of
(loading, user) to the rendered navigator. -/

/-- The screens registered in the AppNavigator stack. -/
inductive Screen
  | Login
  | Register
  | AdminDashboard
  | DoctorDashboard
  | PatientDashboard
  | Home
  | CreateAppointment
  | Profile
  | EditProfile
  | Notifications
  | Settings
deriving DecidableEq

/-- The screens every authenticated user gets (lines 91-120), in stack
order. -/
def commonScreens : List Screen :=
  [Screen.Home, Screen.CreateAppointment, Screen.Profile, Screen.EditProfile,
   Screen.Notifications, Screen.Settings]

/-- The role-conditional screens (lines 66-88), in stack order: each of
the three conditionals contributes its dashboard when the role string
matches. -/
def roleScreens (u : User) : List Screen :=
  (if u.role = "admin" then [Screen.AdminDashboard] else []) ++
  (if u.role = "doctor" then [Screen.DoctorDashboard] else []) ++
  (if u.role = "patient" then [Screen.PatientDashboard] else [])

/-- What the AppNavigator renders: null while loading, the public branch
for a null user, the protected branch otherwise. -/
inductive NavOutput
  | booting
  | unauthenticated (screens : List Screen)
  | authenticated (screens : List Screen)
deriving DecidableEq

/-- AppNavigator: if loading return null (line 45); else the stack holds
Login and Register when user is null (lines 56-61), and the
role-conditional screens followed by the common screens otherwise
(lines 62-121). -/
def appNavigator (loading : Bool) (user : Option User) : NavOutput :=
  if loading then .booting
  else
    match user with
    | none => .unauthenticated [Screen.Login, Screen.Register]
    | some u => .authenticated (roleScreens u ++ commonScreens)

/-- The destinations reachable in the rendered output. -/
def reachableSet : NavOutput → List Screen
  | .booting => []
  | .unauthenticated l => l
  | .authenticated l => l

/-- React Navigation with no initialRouteName starts on the first screen
of the stack. -/
def initialDestination (loading : Bool) (user : Option User) : Option Screen :=
  (reachableSet (appNavigator loading user)).head?

/-! The useAuth hook (AuthContext lines 124-131) and the context default
(line 32). -/

/-- The runtime value held by the auth context object: either the empty
object created by the createContext default cast, or a provider value
(whose closures are irrelevant here, only user and loading). -/
inductive AuthContextObj
  | emptyDefault
  | providerValue (user : Option User) (loading : Bool)
deriving DecidableEq

/-- A JavaScript value as seen by the truthiness guard. -/
inductive JsValue
  | jsUndefined
  | jsNull
  | jsObject (o : AuthContextObj)
deriving DecidableEq

/-- JavaScript falsiness of such a value: null and undefined are falsy,
every object is truthy. -/
def jsFalsy : JsValue → Bool
  | .jsUndefined => true
  | .jsNull => true
  | .jsObject _ => false

/-- Line 32: createContext is called with an empty object cast to
AuthContextData, so the default value of the context is an object. -/
def authContextDefault : JsValue := .jsObject .emptyDefault

/-- useContext returns the nearest provider value, or the createContext
default when the call site is outside every provider. -/
def useContextAuth : Option AuthContextObj → JsValue
  | some o => .jsObject o
  | none => authContextDefault

/-- useAuth (lines 124-131): read the context; if it is falsy throw the
must-be-used-within-AuthProvider error; else return it. -/
def useAuth (slot : Option AuthContextObj) : Except JsError JsValue :=
  let context := useContextAuth slot
  if jsFalsy context then .error "useAuth must be used within an AuthProvider"
  else .ok context

/-! Concrete values used by counterexamples and witnesses. -/

/-- A user whose role is outside the three enumerated variants. -/
def nurseUser : User := { id := "u9", name := "Nina", email := "nina@x", role := "nurse" }

/-- A patient user. -/
def patientUser : User := { id := "u1", name := "Pat", email := "pat@x", role := "patient" }

/-- An admin user. -/
def adminUser : User := { id := "u2", name := "Ada", email := "ada@x", role := "admin" }

/-- The admin user with the role changed to doctor (same id). -/
def adminTurnedDoctor : User := { id := "u2", name := "Ada", email := "ada@x", role := "doctor" }

/-- Oracle under which every storage call succeeds. -/
def allOk : StoreBehavior :=
  { setUserOk := true, setTokenOk := true, removeUserOk := true, removeTokenOk := true }

/-- Oracle under which the token write throws and everything else
succeeds. -/
def tokenWriteFails : StoreBehavior :=
  { setUserOk := true, setTokenOk := false, removeUserOk := true, removeTokenOk := true }

/-- An authenticated admin session with both entries persisted. -/
def adminSession : AuthState :=
  { user := some adminUser, loading := false,
    store := { userEntry := some adminUser, tokenEntry := some "t2" } }

/-- A successful gateway response for the patient user. -/
def patientResponse : AuthResponse := { user := patientUser, token := "t1" }

/-! Theorems settling the claims. -/

/-- C5: when the gateway fails with an error, signIn returns exactly that
error value and the state (in-memory user, loading flag, and both
persisted entries) is identical to what it was before the call. -/
theorem signIn_gateway_failure (e : JsError) (b : StoreBehavior) (s : AuthState) :
    signIn (Except.error e) b s = (s, some e) := rfl

/-- C6: loadStoredUser always finishes with loading false and never
returns an error (its result type carries none); when the read yields a
stored user it sets the in-memory user to that value; on a missing entry
or a storage failure, starting from an absent identity it leaves the
identity absent. -/
theorem loadStoredUser_terminates (gw : Except JsError (Option User)) (s : AuthState) :
    (loadStoredUser gw s).loading = false
    ∧ (∀ u, gw = Except.ok (some u) → (loadStoredUser gw s).user = some u)
    ∧ (s.user = none → (gw = Except.ok none ∨ ∃ e, gw = Except.error e) →
        (loadStoredUser gw s).user = none) := by
  refine ⟨?_, ?_, ?_⟩
  · cases gw with
    | ok v => cases v <;> rfl
    | error e => rfl
  · intro u hu
    subst hu
    rfl
  · intro hnone hfail
    rcases hfail with h | ⟨e, h⟩ <;> subst h <;> simpa [loadStoredUser] using hnone

/-- Witness for C6 at concrete inputs: a successful read installs the
read user, and a failing read still ends with loading false. -/
theorem loadStoredUser_terminates_witness :
    (loadStoredUser (Except.ok (some patientUser)) initialState).user = some patientUser
    ∧ (loadStoredUser (Except.error "store down") initialState).loading = false :=
  ⟨(loadStoredUser_terminates (Except.ok (some patientUser)) initialState).2.1
      patientUser rfl,
   (loadStoredUser_terminates (Except.error "store down") initialState).1⟩

/-- C8: whenever loading is true the AppNavigator renders the booting
output (null) with an empty reachable set, never the authenticated or
unauthenticated navigator, whatever the user value is. -/
theorem appNavigator_booting (user : Option User) :
    appNavigator true user = NavOutput.booting
    ∧ reachableSet (appNavigator true user) = [] := ⟨rfl, rfl⟩

/-- C9: register performs exactly the same state transition as signIn
for any given gateway result, storage outcome and starting state; in
particular on success it installs the returned user in memory and
persists the user and token entries, and on gateway failure it returns
the error unchanged with state unchanged. -/
theorem register_refines_signIn (gw : Except JsError AuthResponse) (b : StoreBehavior)
    (s : AuthState) :
    register gw b s = signIn gw b s
    ∧ (∀ resp, gw = Except.ok resp → b.setUserOk = true → b.setTokenOk = true →
        (register gw b s).1.user = some resp.user
        ∧ (register gw b s).1.store.userEntry = some resp.user
        ∧ (register gw b s).1.store.tokenEntry = some resp.token)
    ∧ (∀ e, gw = Except.error e → register gw b s = (s, some e)) := by
  refine ⟨rfl, ?_, ?_⟩
  · intro resp hgw hU hT
    subst hgw
    simp [register, hU, hT]
  · intro e hgw
    subst hgw
    rfl

/-- Witness for C9 at concrete inputs: a successful registration of the
patient user installs and persists it. -/
theorem register_refines_signIn_witness :
    (register (Except.ok patientResponse) allOk initialState).1.user = some patientUser
    ∧ (register (Except.error "taken") allOk initialState) = (initialState, some "taken") :=
  ⟨((register_refines_signIn (Except.ok patientResponse) allOk initialState).2.1
      patientResponse rfl rfl rfl).1,
   (register_refines_signIn (Except.error "taken") allOk initialState).2.2 "taken" rfl⟩

/-- C10: useAuth never throws: for every call site (inside or outside an
AuthProvider) it returns ok, because the createContext default is a
truthy object; in particular a call outside every provider silently
returns the empty default object instead of failing. -/
theorem useAuth_never_throws (slot : Option AuthContextObj) :
    (∃ v, useAuth slot = Except.ok v)
    ∧ useAuth none = Except.ok authContextDefault := by
  refine ⟨?_, rfl⟩
  cases slot with
  | none => exact ⟨authContextDefault, rfl⟩
  | some o => exact ⟨JsValue.jsObject o, rfl⟩

/-- C7: for each of the three enumerated roles, the authenticated
reachable set is exactly the role dashboard followed by the common
screens, the initial destination (first screen of the stack) is the role
dashboard, and the dashboards of the other two roles are excluded. -/
theorem appNavigator_role_gated (u : User) :
    (u.role = "admin" →
      appNavigator false (some u)
        = NavOutput.authenticated (Screen.AdminDashboard :: commonScreens)
      ∧ initialDestination false (some u) = some Screen.AdminDashboard
      ∧ Screen.DoctorDashboard ∉ reachableSet (appNavigator false (some u))
      ∧ Screen.PatientDashboard ∉ reachableSet (appNavigator false (some u)))
    ∧ (u.role = "doctor" →
      appNavigator false (some u)
        = NavOutput.authenticated (Screen.DoctorDashboard :: commonScreens)
      ∧ initialDestination false (some u) = some Screen.DoctorDashboard
      ∧ Screen.AdminDashboard ∉ reachableSet (appNavigator false (some u))
      ∧ Screen.PatientDashboard ∉ reachableSet (appNavigator false (some u)))
    ∧ (u.role = "patient" →
      appNavigator false (some u)
        = NavOutput.authenticated (Screen.PatientDashboard :: commonScreens)
      ∧ initialDestination false (some u) = some Screen.PatientDashboard
      ∧ Screen.AdminDashboard ∉ reachableSet (appNavigator false (some u))
      ∧ Screen.DoctorDashboard ∉ reachableSet (appNavigator false (some u))) := by
  refine ⟨?_, ?_, ?_⟩ <;> intro h <;>
    simp [appNavigator, roleScreens, initialDestination, reachableSet, commonScreens, h]

/-- Witness for C7 at a concrete patient user: the set starts with the
patient dashboard and excludes the admin dashboard. -/
theorem appNavigator_role_gated_witness :
    appNavigator false (some patientUser)
      = NavOutput.authenticated (Screen.PatientDashboard :: commonScreens)
    ∧ Screen.AdminDashboard ∉ reachableSet (appNavigator false (some patientUser)) :=
  ⟨((appNavigator_role_gated patientUser).2.2 rfl).1,
   ((appNavigator_role_gated patientUser).2.2 rfl).2.2.1⟩

/-- C1 counterexample: for an authenticated session whose role is the
out-of-enumeration string nurse, the reachable set contains Home (a
common authenticated destination) and differs from the unauthenticated
reachable set the code computes for a null user, so the stated
fail-closed behaviour does not hold. -/
theorem appNavigator_unknown_role_counterexample :
    Screen.Home ∈ reachableSet (appNavigator false (some nurseUser))
    ∧ reachableSet (appNavigator false (some nurseUser))
        ≠ reachableSet (appNavigator false none) := by
  constructor
  · simp [appNavigator, reachableSet, roleScreens, nurseUser, commonScreens]
  · simp [appNavigator, reachableSet, roleScreens, nurseUser, commonScreens]

/-- C1 amended: a role outside the three enumerated variants resolves to
the authenticated branch with no dashboard: the reachable set is exactly
the common screens (so Home is the initial destination), not the
unauthenticated set, and no dashboard or sign-in screen is reachable. -/
theorem appNavigator_unknown_role (u : User) (ha : u.role ≠ "admin")
    (hd : u.role ≠ "doctor") (hp : u.role ≠ "patient") :
    appNavigator false (some u) = NavOutput.authenticated commonScreens
    ∧ initialDestination false (some u) = some Screen.Home
    ∧ Screen.Login ∉ reachableSet (appNavigator false (some u))
    ∧ Screen.AdminDashboard ∉ reachableSet (appNavigator false (some u)) := by
  simp [appNavigator, roleScreens, initialDestination, reachableSet, commonScreens,
    ha, hd, hp]

/-- Witness for the amended C1 at the concrete nurse user. -/
theorem appNavigator_unknown_role_witness :
    appNavigator false (some nurseUser) = NavOutput.authenticated commonScreens
    ∧ initialDestination false (some nurseUser) = some Screen.Home :=
  ⟨(appNavigator_unknown_role nurseUser (by decide) (by decide) (by decide)).1,
   (appNavigator_unknown_role nurseUser (by decide) (by decide) (by decide)).2.1⟩

/-- C2 counterexample: when the gateway sign-out call fails, signOut
leaves the in-memory identity and both persisted entries exactly as they
were (the catch runs before any clearing), contradicting the claim that
the clearing is unconditional in the gateway outcome. -/
theorem signOut_gateway_failure_counterexample :
    (signOut false allOk adminSession).1.user = some adminUser
    ∧ (signOut false allOk adminSession).1.store.userEntry = some adminUser
    ∧ (signOut false allOk adminSession).1.store.tokenEntry = some "t2"
    ∧ (signOut false allOk adminSession).2 = none := ⟨rfl, rfl, rfl, rfl⟩

/-- C2 amended: signOut never propagates an error; but the client-side
clearing is conditional on the gateway call: when the gateway call
fails the state is left completely unchanged, and only when it succeeds
(and the removals succeed) are the identity cleared and both persisted
entries removed. -/
theorem signOut_amended (gwOk : Bool) (b : StoreBehavior) (s : AuthState) :
    (signOut gwOk b s).2 = none
    ∧ (gwOk = false → (signOut gwOk b s).1 = s)
    ∧ (gwOk = true → b.removeUserOk = true → b.removeTokenOk = true →
        (signOut gwOk b s).1.user = none
        ∧ (signOut gwOk b s).1.store.userEntry = none
        ∧ (signOut gwOk b s).1.store.tokenEntry = none) := by
  rcases b with ⟨su, st, ru, rt⟩
  cases gwOk <;> cases ru <;> cases rt <;> simp [signOut]

/-- Witness for the amended C2: a successful sign-out from the admin
session clears the user, and a gateway-failing sign-out changes
nothing. -/
theorem signOut_amended_witness :
    (signOut true allOk adminSession).1.user = none
    ∧ (signOut false allOk adminSession).1 = adminSession :=
  ⟨((signOut_amended true allOk adminSession).2.2 rfl rfl rfl).1,
   (signOut_amended false allOk adminSession).2.1 rfl⟩

/-- C3 counterexample: from an active admin session, updateUser called
with the same id but role doctor succeeds with no error and replaces
both the in-memory and the persisted identity, instead of failing with
InvariantViolation and leaving state unchanged. -/
theorem updateUser_role_change_counterexample :
    (updateUser allOk adminTurnedDoctor adminSession).2 = none
    ∧ (updateUser allOk adminTurnedDoctor adminSession).1.user = some adminTurnedDoctor
    ∧ (updateUser allOk adminTurnedDoctor adminSession).1.store.userEntry
        = some adminTurnedDoctor := ⟨rfl, rfl, rfl⟩

/-- C3 amended: updateUser performs no role or id check at all: for
every state and every update argument, when the store write succeeds it
replaces the in-memory and persisted identity with the argument and
returns no error, even when role or id differ from the active
identity. -/
theorem updateUser_unchecked (b : StoreBehavior) (u : User) (s : AuthState)
    (h : b.setUserOk = true) :
    updateUser b u s
      = ({ s with user := some u, store := { s.store with userEntry := some u } }, none) := by
  simp [updateUser, h]

/-- Witness for the amended C3 at the concrete role-changing update. -/
theorem updateUser_unchecked_witness :
    updateUser allOk adminTurnedDoctor adminSession
      = ({ adminSession with user := some adminTurnedDoctor, store := { adminSession.store with userEntry := some adminTurnedDoctor } }, none) :=
  updateUser_unchecked allOk adminTurnedDoctor adminSession rfl

/-- C4 counterexample: starting from the empty store, a signIn whose
user write succeeds but whose token write throws ends (by the rethrow)
with the user entry persisted and the token entry absent: an observable
state holding one half of the pair. -/
theorem pairing_counterexample :
    pairing (run initialState
      [Op.opSignIn (Except.ok patientResponse) tokenWriteFails]).store = false := rfl

/-- Helper for the amended C4: every single guarded operation preserves
the pairing of the persisted entries. -/
theorem pairing_step (o : Op) (s : AuthState) (h0 : pairing s.store = true)
    (hg : opGuard s o = true) : pairing (step o s).store = true := by
  cases o with
  | opSignIn gw b =>
    simp only [opGuard, Bool.and_eq_true] at hg
    obtain ⟨hU, hT⟩ := hg
    cases gw with
    | error e => simpa [step, signIn] using h0
    | ok resp => simp [step, signIn, hU, hT, pairing]
  | opRegister gw b =>
    simp only [opGuard, Bool.and_eq_true] at hg
    obtain ⟨hU, hT⟩ := hg
    cases gw with
    | error e => simpa [step, register] using h0
    | ok resp => simp [step, register, hU, hT, pairing]
  | opSignOut gwOk b =>
    simp only [opGuard, Bool.and_eq_true] at hg
    obtain ⟨hU, hT⟩ := hg
    cases gwOk with
    | false => simpa [step, signOut] using h0
    | true => simp [step, signOut, hU, hT, pairing]
  | opUpdateUser b u =>
    simp only [opGuard, Bool.and_eq_true] at hg
    obtain ⟨hU, hT⟩ := hg
    simp [step, updateUser, hU, pairing, hT]
  | opRestore gw =>
    cases gw with
    | error e => simpa [step, loadStoredUser] using h0
    | ok v => cases v <;> simpa [step, loadStoredUser] using h0

/-- C4 amended: the pairing invariant holds at the end of every
operation sequence provided the storage calls of each operation succeed
and updateUser is invoked only while a token is persisted; without those
provisos a failing token write (or an updateUser on an empty store)
observably breaks the pairing, as the counterexample shows. -/
theorem pairing_invariant (ops : List Op) (s : AuthState)
    (h0 : pairing s.store = true) (hg : guardedRun s ops = true) :
    pairing (run s ops).store = true := by
  induction ops generalizing s with
  | nil => simpa [run] using h0
  | cons o rest ih =>
    simp only [guardedRun, Bool.and_eq_true] at hg
    obtain ⟨h1, h2⟩ := hg
    rw [run]
    exact ih (step o s) (pairing_step o s h0 h1) h2

/-- Witness for the amended C4: a concrete restore, sign-in, sign-out
run from the initial state keeps the pairing. -/
theorem pairing_invariant_witness :
    pairing (run initialState
      [Op.opRestore (Except.ok none),
       Op.opSignIn (Except.ok patientResponse) allOk,
       Op.opSignOut true allOk]).store = true :=
  pairing_invariant
    [Op.opRestore (Except.ok none),
     Op.opSignIn (Except.ok patientResponse) allOk,
     Op.opSignOut true allOk] initialState rfl rfl

end MedicalApp
